import Mathlib

/-
Verification of the client-side interactive runtime of the Copper-Tech
marketing site (src/js/script.js), as a shallow embedding in Lean 4.

The embedding models the stateful widgets of the runtime: the carousel
controller (slide-index state machine, geometry transform, gesture
classification, pagination), the fragment loader (promise results, DOM
writes), the focus trap, the menu-overlay controller, the rotating
heading, and the screen-reader announcer.  DOM state is represented
explicitly (lists of class flags, content strings, write traces); JS
numbers that carry pixel deltas are `Int`; timers are represented by
their absolute firing times.
-/

namespace CopperTech

/- ===================== Carousel Controller ===================== -/

/- Constant `swipeThreshold = 50` from initializeCarousel: minimum
horizontal distance for a swipe. -/
def swipeThreshold : Int := 50

/-- State owned by `initializeCarousel` in src/js/script.js, together with
the DOM state it mutates.  `slideActive` holds the `active-slide` class flag
of each rendered `.project-showcase` card, `dotActive` / `dotSelected` the
`active` class and `aria-selected` attribute of each pagination dot,
`trackTransform` the `translateX` pixel offset applied to the card list,
and `announced` the trace of screen-reader announcements issued. -/
structure CarouselState where
  currentSlide : Int
  totalSlides : Nat
  slideActive : List Bool
  dotActive : List Bool
  dotSelected : List Bool
  trackTransform : Int
  isSwiping : Bool
  announced : List String
deriving Repr, DecidableEq, Inhabited

/-- `updatePaginationDots` (script.js:806-826): for each dot in the
pagination container, add the `active` class and `aria-selected="true"`
exactly when its index equals `currentSlide`, remove/false otherwise. -/
def updatePaginationDots (s : CarouselState) : CarouselState :=
  { s with
    dotActive := (List.range s.dotActive.length).map
      (fun (i : Nat) => ((i : Int) == s.currentSlide)),
    dotSelected := (List.range s.dotSelected.length).map
      (fun (i : Nat) => ((i : Int) == s.currentSlide)) }

/-- The message `Project ${currentSlide + 1} of ${totalSlides}` announced by
`goToSlide`. -/
def slideAnnouncement (index : Int) (totalSlides : Nat) : String :=
  "Project " ++ toString (index + 1) ++ " of " ++ toString totalSlides

/-- `goToSlide` (script.js:721-780).  `slideWidth` is the first slide's
`offsetWidth` and `gap` the container's computed gap, both measured at the
moment of the call and hence parameters here.  Faithful to the source:
bounds check first, then the slides-missing check, then `currentSlide`
assignment, then the early return when the measured width is `<= 0`
(leaving every other effect unperformed), and otherwise the transform,
the `active-slide` classes, the pagination dots and the announcement. -/
def goToSlide (slideWidth gap index : Int) (s : CarouselState) : CarouselState :=
  if index < 0 ∨ (s.totalSlides : Int) ≤ index then s
  else if s.totalSlides = 0 then s
  else
    let s1 := { s with currentSlide := index }
    if slideWidth ≤ 0 then s1
    else
      let translateX := -index * (slideWidth + gap)
      let s2 := { s1 with
        trackTransform := translateX,
        slideActive := (List.range s1.totalSlides).map
          (fun (i : Nat) => ((i : Int) == index)) }
      let s3 := updatePaginationDots s2
      { s3 with announced := s3.announced ++ [slideAnnouncement index s.totalSlides] }

/-- `nextSlide` (script.js:786-790): advance only when not already at the
last slide. -/
def nextSlide (slideWidth gap : Int) (s : CarouselState) : CarouselState :=
  if s.currentSlide < (s.totalSlides : Int) - 1 then
    goToSlide slideWidth gap (s.currentSlide + 1) s
  else s

/-- `prevSlide` (script.js:796-800): go back only when not already at the
first slide. -/
def prevSlide (slideWidth gap : Int) (s : CarouselState) : CarouselState :=
  if s.currentSlide > 0 then
    goToSlide slideWidth gap (s.currentSlide - 1) s
  else s

/-- `handleSwipe` (script.js:926-945): with `diffX = touchStartX - touchEndX`
and `diffY = |touchStartY - touchEndY|`, navigate next/prev when
`|diffX| > diffY` and `|diffX| > swipeThreshold`, and otherwise do not
navigate.  The `isSwiping` reset the source schedules 50ms later is the
separate `resetSwipeFlag` below. -/
def handleSwipe (slideWidth gap : Int) (touchStartX touchStartY touchEndX touchEndY : Int)
    (s : CarouselState) : CarouselState :=
  let diffX := touchStartX - touchEndX
  let diffY := |touchStartY - touchEndY|
  if |diffX| > diffY ∧ |diffX| > swipeThreshold then
    if diffX > 0 then nextSlide slideWidth gap s
    else prevSlide slideWidth gap s
  else s

/-- The deferred `isSwiping = false` reset scheduled by `handleSwipe`
(script.js:942-944). -/
def resetSwipeFlag (s : CarouselState) : CarouselState :=
  { s with isSwiping := false }

/-- `handleTouchMove` (script.js:899-909): classify the gesture as a swipe
once horizontal displacement exceeds both the vertical displacement and the
10px jitter threshold; the classification is sticky. -/
def handleTouchMove (touchStartX touchStartY currentX currentY : Int)
    (s : CarouselState) : CarouselState :=
  let diffX := |currentX - touchStartX|
  let diffY := |currentY - touchStartY|
  if diffX > diffY ∧ diffX > 10 then { s with isSwiping := true } else s

/-- `createPaginationDots` (script.js:832-859): no-op when `totalSlides = 0`;
otherwise clear the container and create one dot per slide, with
`aria-selected` true only for index 0 and no `active` class yet, then run
`updatePaginationDots`. -/
def createPaginationDots (s : CarouselState) : CarouselState :=
  if s.totalSlides = 0 then s
  else
    let s1 := { s with
      dotActive := List.replicate s.totalSlides false,
      dotSelected := (List.range s.totalSlides).map (fun i => i == 0) }
    updatePaginationDots s1

/-- `initializeCarousel` (script.js:691-1007) restricted to its state
set-up: `none` when no `.project-showcase` cards are rendered; otherwise
fix `totalSlides := n`, build the pagination dots, and navigate to slide 0
with the geometry measured at that moment. -/
def initializeCarousel (n : Nat) (slideWidth gap : Int) : Option CarouselState :=
  if n = 0 then none
  else
    let s0 : CarouselState := {
      currentSlide := 0, totalSlides := n,
      slideActive := List.replicate n false,
      dotActive := [], dotSelected := [],
      trackTransform := 0, isSwiping := false, announced := [] }
    some (goToSlide slideWidth gap 0 (createPaginationDots s0))

/- ===================== Fragment Loader ===================== -/

/-- Result of a JS promise: resolved with a value or rejected with an
error message. -/
inductive PResult (α : Type) where
  | resolved (a : α)
  | rejected (msg : String)
deriving Repr, DecidableEq

/-- Whether a promise result is a resolution. -/
def PResult.isResolved {α : Type} : PResult α → Bool
  | .resolved _ => true
  | .rejected _ => false

/-- One entry of `Promise.allSettled`'s result array. -/
inductive Settled (α : Type) where
  | fulfilled (a : α)
  | rejectedS (msg : String)
deriving Repr, DecidableEq

/-- `Promise.allSettled`: never rejects; converts each input promise into a
fulfilled/rejected record. -/
def allSettled {α : Type} (ps : List (PResult α)) : PResult (List (Settled α)) :=
  .resolved (ps.map (fun p => match p with
    | .resolved a => .fulfilled a
    | .rejected m => .rejectedS m))

/-- A DOM content mutation performed by the loader: `element.innerHTML = html`
(replacing the target's content) or `insertAdjacentHTML('beforeend', html)`
(appending to the container). -/
inductive DomWrite where
  | setContent (html : String)
  | append (html : String)
deriving Repr, DecidableEq

/-- `AppConfig.messages.componentLoadError` (config.js). -/
def componentLoadError : String :=
  "Component failed to load. Please refresh the page."

/-- `AppConfig.messages.projectCardLoadError` (config.js). -/
def projectCardLoadError : String :=
  "Failed to load project card. Some projects may not be displayed."

/-- `AppConfig.components` (config.js): placeholder element IDs paired with
fragment paths. -/
def appConfigComponents : List (String × String) :=
  [("nav-placeholder", "components/nav.html"),
   ("footer-placeholder", "components/footer.html"),
   ("cta-placeholder", "components/cta.html")]

/-- `AppConfig.projectCards` (config.js). -/
def appConfigProjectCards : List String :=
  ["components/project-navy-pacific.html",
   "components/project-camper-van.html"]

/-- The fixed `role="alert"` error block built by `handleComponentLoadError`
(script.js:138). -/
def errorBlockHTML (errorMessage : String) : String :=
  "<div class=\"component-error\" role=\"alert\" aria-live=\"polite\">"
    ++ errorMessage ++ "</div>"

/-- The document and network environment a load call runs against:
which element IDs resolve, which selectors resolve, and what each fetch
returns (`Except.error` covering both network failure and a non-ok HTTP
status, which `fetchHTML` treats identically by throwing). -/
structure LoadEnv where
  elementExists : String → Bool
  selectorExists : String → Bool
  fetch : String → Except String String

/-- `fetchHTML` (script.js:96-108): reject on an invalid (empty) path,
otherwise resolve with the body or reject on network/HTTP failure. -/
def fetchHTML (componentPath : String) (env : LoadEnv) : PResult String :=
  if componentPath = "" then .rejected "Invalid component path provided"
  else match env.fetch componentPath with
    | .ok html => .resolved html
    | .error e => .rejected e

/-- The insertion method argument of `handleComponentLoadError`. -/
inductive InsertMethod where
  | innerHTML
  | insertAdjacentHTML
deriving Repr, DecidableEq

/-- `handleComponentLoadError` (script.js:133-149): no write when the target
is absent, otherwise one write of the error block, replacing content for
`innerHTML` and appending for `insertAdjacentHTML`. -/
def handleComponentLoadError (targetExists : Bool) (errorMessage : String)
    (insertMethod : InsertMethod) : List DomWrite :=
  if ¬targetExists then []
  else match insertMethod with
    | .innerHTML => [.setContent (errorBlockHTML errorMessage)]
    | .insertAdjacentHTML => [.append (errorBlockHTML errorMessage)]

/-- `loadComponent` (script.js:160-184): validate both arguments (the falsy
check on a JS string is the empty-string check here), resolve the target by
ID, fetch, and on success replace the target's content with the markup; on
fetch failure render the configured error block via
`handleComponentLoadError`.  The promise always resolves, carrying the JS
boolean return value and the trace of DOM writes performed on the target. -/
def loadComponent (elementId componentPath : String) (env : LoadEnv) :
    PResult (Bool × List DomWrite) :=
  if elementId = "" then .resolved (false, [])
  else if componentPath = "" then .resolved (false, [])
  else if ¬env.elementExists elementId then .resolved (false, [])
  else match fetchHTML componentPath env with
    | .resolved html => .resolved (true, [.setContent html])
    | .rejected _ =>
        .resolved (false, handleComponentLoadError true componentLoadError .innerHTML)

/-- `loadProjectCard` (script.js:195-219): like `loadComponent` but the
target is resolved by CSS selector, successful markup is appended to the
container's end, and the error block is appended rather than replacing. -/
def loadProjectCard (containerSelector componentPath : String) (env : LoadEnv) :
    PResult (Bool × List DomWrite) :=
  if containerSelector = "" then .resolved (false, [])
  else if componentPath = "" then .resolved (false, [])
  else if ¬env.selectorExists containerSelector then .resolved (false, [])
  else match fetchHTML componentPath env with
    | .resolved html => .resolved (true, [.append html])
    | .rejected _ =>
        .resolved (false, handleComponentLoadError true projectCardLoadError .insertAdjacentHTML)

/-- `AppConfig.selectors.projectCardsList` (config.js). -/
def projectCardsListSelector : String := ".project-cards-list"

/-- `initializeComponents` (script.js:228-246): issue one `loadComponent`
per configured placeholder; when the project-card container resolves, also
issue one `loadProjectCard` per configured card path; then await
`Promise.allSettled` over all of them.  The source discards the settled
array (`await` then return); it is kept here as the observable result of
the join. -/
def initializeComponents (env : LoadEnv) :
    PResult (List (Settled (Bool × List DomWrite))) :=
  let componentPromises := appConfigComponents.map
    (fun p => loadComponent p.1 p.2 env)
  let promises :=
    if env.selectorExists projectCardsListSelector then
      componentPromises ++ appConfigProjectCards.map
        (fun path => loadProjectCard projectCardsListSelector path env)
    else componentPromises
  allSettled promises

/- ===================== Focus Trap ===================== -/

/-- A keyboard event as the trap handler reads it. -/
structure KeyEvent where
  key : String
  shiftKey : Bool
deriving Repr, DecidableEq

/-- What the `trapFocus` handler does with an event: pass it through
untouched (browser default applies) or `preventDefault` and move focus to a
given element. -/
inductive TrapAction where
  | passThrough
  | redirect (target : Nat)
deriving Repr, DecidableEq

/-- `createFocusTrap` (script.js:574-603).  Focusable elements are element
identifiers; `containerActive` is whether the container currently carries
the active class, `focused` is `document.activeElement`.  An empty
focusable list yields the no-op handler; otherwise Shift+Tab on the first
focusable redirects to the last, plain Tab on the last redirects to the
first, and every other event passes through. -/
def createFocusTrap (focusables : List Nat) (containerActive : Bool)
    (focused : Nat) (e : KeyEvent) : TrapAction :=
  if focusables.length = 0 then .passThrough
  else
    let firstFocusable := focusables.getD 0 0
    let lastFocusable := focusables.getD (focusables.length - 1) 0
    if ¬containerActive then .passThrough
    else if e.key = "Tab" then
      if e.shiftKey then
        if focused = firstFocusable then .redirect lastFocusable else .passThrough
      else
        if focused = lastFocusable then .redirect firstFocusable else .passThrough
    else .passThrough

/- ===================== Menu Overlay Controller ===================== -/

/-- State touched by `initializeMenuOverlay` (script.js:407-502): the
overlay's and button's active classes, the button's `aria-expanded`, the
body scroll lock, the stored previously-focused element, whether the
`trapFocus` keydown listener is attached, the currently focused element,
and the trace of screen-reader announcements. -/
structure OverlayState where
  overlayActive : Bool
  btnActive : Bool
  btnExpanded : Bool
  bodyScrollLocked : Bool
  previousActiveElement : Option Nat
  trapAttached : Bool
  focused : Nat
  announced : List String
deriving Repr, DecidableEq

/-- The overlay's document environment: whether the menu button and the
overlay element exist, and the links found inside the overlay (focusable
element identifiers, in order). -/
structure MenuEnv where
  menuBtnExists : Bool
  menuOverlayExists : Bool
  menuLinks : List Nat
deriving Repr, DecidableEq

/-- `openMenu` (script.js:424-447): add active classes, set expanded, lock
scroll, record the focused element, focus the first menu link if any,
attach the trap, announce "Menu opened". -/
def openMenu (env : MenuEnv) (s : OverlayState) : OverlayState :=
  let s1 : OverlayState := { s with
    overlayActive := true, btnActive := true, btnExpanded := true,
    bodyScrollLocked := true, previousActiveElement := some s.focused }
  let s2 := match env.menuLinks with
    | [] => s1
    | f :: _ => { s1 with focused := f }
  { s2 with trapAttached := true, announced := s2.announced ++ ["Menu opened"] }

/-- `closeMenu` (script.js:454-475): remove active classes, clear expanded,
restore scroll, detach the trap, return focus to the stored element and
clear the reference, announce "Menu closed". -/
def closeMenu (s : OverlayState) : OverlayState :=
  let s1 : OverlayState := { s with
    overlayActive := false, btnActive := false, btnExpanded := false,
    bodyScrollLocked := false, trapAttached := false }
  let s2 := match s1.previousActiveElement with
    | some prev => { s1 with focused := prev, previousActiveElement := none }
    | none => s1
  { s2 with announced := s2.announced ++ ["Menu closed"] }

/-- The menu button's click handler installed by `initializeMenuOverlay`
(script.js:477-484): toggle on the overlay's current active class.  The
handler only exists when both the button and the overlay were found at
initialization. -/
def menuBtnClick (env : MenuEnv) (s : OverlayState) : OverlayState :=
  if ¬(env.menuBtnExists ∧ env.menuOverlayExists) then s
  else if s.overlayActive then closeMenu s
  else openMenu env s

/-- `openMenuOverlay` (script.js:257-262): when the cached menu button
exists, fire its click (running the toggle handler) and announce
"Navigation menu opened". -/
def openMenuOverlay (env : MenuEnv) (s : OverlayState) : OverlayState :=
  if env.menuBtnExists then
    let s1 := menuBtnClick env s
    { s1 with announced := s1.announced ++ ["Navigation menu opened"] }
  else s

/- ===================== Rotating Industry Heading ===================== -/

/-- Fallback word list hardcoded in `initializeRotatingIndustry`
(script.js:1037-1044); the shipped AppConfig has no `rotatingIndustry`
entry, so this fallback is the effective configuration. -/
def rotatingIndustries : List String :=
  ["Military & Defense", "Remote Businesses", "Residential Homes",
   "Emergency Response", "Job Sites"]

/-- State owned by `initializeRotatingIndustry`: the word index, the text
shown in the heading, the fade class flags, and the pause flag. -/
structure RotationState where
  currentIndex : Nat
  displayedText : String
  fadeOut : Bool
  fadeIn : Bool
  isPaused : Bool
deriving Repr, DecidableEq

/-- First phase of `updateRotatingText` (script.js:1077-1080): return
immediately when paused, otherwise add the `fade-out` class (the rest runs
in a timeout after `fadeDuration`). -/
def updateRotatingTextStart (s : RotationState) : RotationState :=
  if s.isPaused then s else { s with fadeOut := true }

/-- The `fadeDuration` timeout body of `updateRotatingText`
(script.js:1082-1097): advance the index modulo the word-list length, swap
the text to the word at the new index, restart the underline animation,
replace `fade-out` with `fade-in`. -/
def updateRotatingTextSwap (industries : List String) (s : RotationState) :
    RotationState :=
  let nextIndex := (s.currentIndex + 1) % industries.length
  { s with
    currentIndex := nextIndex,
    displayedText := industries.getD nextIndex s.displayedText,
    fadeOut := false, fadeIn := true }

/-- The inner `fadeDuration` timeout of `updateRotatingText`
(script.js:1094-1096): clear the `fade-in` marker. -/
def updateRotatingTextEnd (s : RotationState) : RotationState :=
  { s with fadeIn := false }

/-- One completed rotation cycle: the tick fires with the controller not
re-paused before the two inner timeouts run, so the three phases of
`updateRotatingText` compose. -/
def rotationCycle (industries : List String) (s : RotationState) : RotationState :=
  if s.isPaused then s
  else updateRotatingTextEnd (updateRotatingTextSwap industries (updateRotatingTextStart s))

/- ===================== Screen Reader Announcer ===================== -/

/-- `SCREEN_READER_CLEAR_DELAY` (script.js:13). -/
def screenReaderClearDelay : Nat := 1000

/-- The singleton ARIA live region plus its pending clear timers:
`regionExists` records the lazy creation by `createAriaLiveRegion`,
`content` is `textContent`, and `pendingClears` the absolute firing times
of every scheduled clear timeout (never cancelled by the source). -/
structure AnnouncerState where
  regionExists : Bool
  content : String
  pendingClears : List Nat
deriving Repr, DecidableEq

/-- `announceToScreenReader` (script.js:543-564) called at absolute time
`now`: an empty (falsy) message is rejected with no effect; otherwise the
live region is created if needed, its content is overwritten with the
message, and one clear timeout at `now + screenReaderClearDelay` is
appended — no existing timer is cancelled. -/
def announceToScreenReader (now : Nat) (message : String) (s : AnnouncerState) :
    AnnouncerState :=
  if message = "" then s
  else { regionExists := true, content := message,
         pendingClears := s.pendingClears ++ [now + screenReaderClearDelay] }

/-- The clear timeout body (script.js:554-560) firing at time `t`: empty
the live region's content unconditionally and retire the timer. -/
def fireClear (t : Nat) (s : AnnouncerState) : AnnouncerState :=
  if t ∈ s.pendingClears then
    { s with content := "", pendingClears := s.pendingClears.erase t }
  else s

/- ===================== Sample values ===================== -/

/- The carousel state after `initializeCarousel` with 3 cards, a first-slide
width of 100px and a 10px gap (slide 0 active, dots built, announcement
made). -/
def sampleCarousel : CarouselState :=
  { currentSlide := 0, totalSlides := 3,
    slideActive := [true, false, false],
    dotActive := [true, false, false],
    dotSelected := [true, false, false],
    trackTransform := 0, isSwiping := false,
    announced := ["Project 1 of 3"] }

/- A document/network environment where every element resolves and every
fetch succeeds. -/
def sampleLoadEnvOk : LoadEnv :=
  { elementExists := fun _ => true,
    selectorExists := fun _ => true,
    fetch := fun _ => Except.ok "<nav></nav>" }

/- A document/network environment where every element resolves and every
fetch fails. -/
def sampleLoadEnvFail : LoadEnv :=
  { elementExists := fun _ => true,
    selectorExists := fun _ => true,
    fetch := fun _ => Except.error "HTTP 404 Not Found" }

/- A page with menu button, overlay and three overlay links. -/
def sampleMenuEnv : MenuEnv :=
  { menuBtnExists := true, menuOverlayExists := true,
    menuLinks := [101, 102, 103] }

/- The overlay in its Closed state with focus on element 7. -/
def sampleOverlayClosed : OverlayState :=
  { overlayActive := false, btnActive := false, btnExpanded := false,
    bodyScrollLocked := false, previousActiveElement := none,
    trapAttached := false, focused := 7, announced := [] }

/- The overlay in its Open state (opened from element 7). -/
def sampleOverlayOpen : OverlayState :=
  { overlayActive := true, btnActive := true, btnExpanded := true,
    bodyScrollLocked := true, previousActiveElement := some 7,
    trapAttached := true, focused := 101, announced := [] }

/- The rotating heading at start: index 0, first fallback word shown. -/
def sampleRotation : RotationState :=
  { currentIndex := 0, displayedText := "Military & Defense",
    fadeOut := false, fadeIn := false, isPaused := false }

/- The announcer before any announcement. -/
def sampleAnnouncer : AnnouncerState :=
  { regionExists := false, content := "", pendingClears := [] }

/- The trace of DOM writes a settled load performed. -/
def settledWrites : PResult (Bool × List DomWrite) → List DomWrite
  | .resolved r => r.2
  | .rejected _ => []

/- ===================== Helper lemmas ===================== -/

/- `goToSlide` never changes the fixed slide count. -/
theorem goToSlide_totalSlides (w g i : Int) (s : CarouselState) :
    (goToSlide w g i s).totalSlides = s.totalSlides := by
  unfold goToSlide updatePaginationDots
  split
  · rfl
  · split
    · rfl
    · split <;> rfl

/- `goToSlide` with an out-of-range index is the identity. -/
theorem goToSlide_out_of_range (w g i : Int) (s : CarouselState)
    (h : i < 0 ∨ (s.totalSlides : Int) ≤ i) : goToSlide w g i s = s := by
  unfold goToSlide
  simp [h]

/- In range, `goToSlide` records the requested index. -/
theorem goToSlide_in_range_currentSlide (w g i : Int) (s : CarouselState)
    (h0 : 0 ≤ i) (h1 : i < (s.totalSlides : Int)) :
    (goToSlide w g i s).currentSlide = i := by
  have hb : ¬(i < 0 ∨ (s.totalSlides : Int) ≤ i) := by omega
  have hn : ¬(s.totalSlides = 0) := by
    intro h
    rw [h] at h1
    omega
  by_cases hw : w ≤ 0 <;>
    simp [goToSlide, updatePaginationDots, hb, hn, hw]

/- On the positive-width in-range path, `goToSlide` is exactly this record. -/
theorem goToSlide_pos_eq (w g : Int) (i : Nat) (s : CarouselState)
    (hw : 0 < w) (hi : i < s.totalSlides) :
    goToSlide w g (i : Int) s =
      { currentSlide := (i : Int),
        totalSlides := s.totalSlides,
        slideActive := (List.range s.totalSlides).map (fun (j : Nat) => ((j : Int) == (i : Int))),
        dotActive := (List.range s.dotActive.length).map (fun (j : Nat) => ((j : Int) == (i : Int))),
        dotSelected := (List.range s.dotSelected.length).map (fun (j : Nat) => ((j : Int) == (i : Int))),
        trackTransform := -(i : Int) * (w + g),
        isSwiping := s.isSwiping,
        announced := s.announced ++ [slideAnnouncement (i : Int) s.totalSlides] } := by
  have hb : ¬((i : Int) < 0 ∨ (s.totalSlides : Int) ≤ (i : Int)) := by
    push_neg
    constructor
    · positivity
    · exact_mod_cast hi
  have hn : ¬(s.totalSlides = 0) := by omega
  have hw' : ¬(w ≤ 0) := by omega
  unfold goToSlide updatePaginationDots
  rw [if_neg hb, if_neg hn, if_neg hw']

/- Reading position `k` of the uniform marking list: true exactly at the
target index, and only inside the list. -/
theorem getD_range_map_beq (n k : Nat) (idx : Int) :
    (((List.range n).map (fun (j : Nat) => ((j : Int) == idx))).getD k false = true) ↔
      (k < n ∧ (k : Int) = idx) := by
  rcases Nat.lt_or_ge k n with h | h
  · rw [List.getD_eq_getElem?_getD, List.getElem?_map, List.getElem?_range h]
    simp only [Option.map_some', Option.getD_some, beq_iff_eq]
    exact ⟨fun hk => ⟨h, hk⟩, fun hk => hk.2⟩
  · have hnone : (List.range n)[k]? = none := by
      apply List.getElem?_eq_none
      simpa using h
    rw [List.getD_eq_getElem?_getD, List.getElem?_map, hnone]
    simp only [Option.map_none', Option.getD_none]
    constructor
    · intro hfalse
      exact absurd hfalse (by simp)
    · intro hk
      omega

/- ===================== Claim theorems ===================== -/

/-- C1 counterexample: on a carousel initialized with one card whose
measured width is 0 (`initializeCarousel 1 0 0`), the in-range call
`goToSlide(0)` leaves no slide carrying the `active-slide` marking at all,
because `goToSlide` returns before the marking step whenever the first
slide's measured width is not positive.  This refutes the unconditional
claim that every in-range `goToSlide` call leaves exactly one slide
active. -/
theorem goToSlide_unique_active_marking_cex :
    (goToSlide 0 0 0 ((initializeCarousel 1 0 0).getD default)).slideActive.count true ≠ 1 := by
  decide

/-- C1 (amended): for a carousel with `i < totalSlides` and as many
pagination dots as slides, if the first slide's measured width is positive
at the moment of the call, then `goToSlide(i)` leaves the slide at `i` as
the unique slide carrying the `active-slide` marking and the dot at `i` as
the unique pagination control carrying the `active` marking; every other
slide and dot is inactive. -/
theorem goToSlide_unique_active_marking (w g : Int) (i : Nat) (s : CarouselState)
    (hw : 0 < w) (hi : i < s.totalSlides)
    (hd : s.dotActive.length = s.totalSlides) :
    ((goToSlide w g (i : Int) s).slideActive.length = s.totalSlides ∧
      ∀ j : Nat, ((goToSlide w g (i : Int) s).slideActive.getD j false = true ↔ j = i)) ∧
    ((goToSlide w g (i : Int) s).dotActive.length = s.totalSlides ∧
      ∀ j : Nat, ((goToSlide w g (i : Int) s).dotActive.getD j false = true ↔ j = i)) := by
  rw [goToSlide_pos_eq w g i s hw hi]
  refine ⟨⟨by simp, fun j => ?_⟩, ⟨by simp [hd], fun j => ?_⟩⟩
  · rw [getD_range_map_beq]
    constructor
    · rintro ⟨hj, hcast⟩
      exact_mod_cast hcast
    · rintro rfl
      exact ⟨hi, rfl⟩
  · rw [hd, getD_range_map_beq]
    constructor
    · rintro ⟨hj, hcast⟩
      exact_mod_cast hcast
    · rintro rfl
      exact ⟨hi, rfl⟩

/-- C1 witness: instantiating the amended theorem on the initialized
3-slide carousel with width 100 and gap 10, navigating to slide 1. -/
theorem goToSlide_unique_active_marking_witness :
    (0 : Int) < 100 ∧ (1 : Nat) < sampleCarousel.totalSlides ∧
    (goToSlide 100 10 ((1 : Nat) : Int) sampleCarousel).slideActive.getD 1 false = true :=
  ⟨by decide, by decide,
    ((goToSlide_unique_active_marking 100 10 1 sampleCarousel
      (by decide) (by decide) (by decide)).1.2 1).mpr rfl⟩

/-- C2: with `totalSlides > 0` and `0 ≤ currentSlide < totalSlides`, every
navigation operation preserves the index invariant; `nextSlide` at the last
index and `prevSlide` at index 0 are no-ops (no wrap), and `goToSlide` with
any out-of-range index is a no-op. -/
theorem carousel_index_invariant (w g i : Int) (s : CarouselState)
    (hn : 0 < s.totalSlides)
    (h0 : 0 ≤ s.currentSlide) (h1 : s.currentSlide < (s.totalSlides : Int)) :
    (0 ≤ (goToSlide w g i s).currentSlide ∧
      (goToSlide w g i s).currentSlide < ((goToSlide w g i s).totalSlides : Int)) ∧
    (0 ≤ (nextSlide w g s).currentSlide ∧
      (nextSlide w g s).currentSlide < ((nextSlide w g s).totalSlides : Int)) ∧
    (0 ≤ (prevSlide w g s).currentSlide ∧
      (prevSlide w g s).currentSlide < ((prevSlide w g s).totalSlides : Int)) ∧
    (s.currentSlide = (s.totalSlides : Int) - 1 → nextSlide w g s = s) ∧
    (s.currentSlide = 0 → prevSlide w g s = s) ∧
    ((i < 0 ∨ (s.totalSlides : Int) ≤ i) → goToSlide w g i s = s) := by
  refine ⟨?_, ?_, ?_, ?_, ?_, fun hb => goToSlide_out_of_range w g i s hb⟩
  · by_cases hb : i < 0 ∨ (s.totalSlides : Int) ≤ i
    · rw [goToSlide_out_of_range w g i s hb]
      exact ⟨h0, h1⟩
    · push_neg at hb
      rw [goToSlide_totalSlides, goToSlide_in_range_currentSlide w g i s hb.1 hb.2]
      exact ⟨hb.1, hb.2⟩
  · unfold nextSlide
    by_cases hc : s.currentSlide < (s.totalSlides : Int) - 1
    · rw [if_pos hc, goToSlide_totalSlides,
        goToSlide_in_range_currentSlide w g _ s (by omega) (by omega)]
      omega
    · rw [if_neg hc]
      exact ⟨h0, h1⟩
  · unfold prevSlide
    by_cases hc : s.currentSlide > 0
    · rw [if_pos hc, goToSlide_totalSlides,
        goToSlide_in_range_currentSlide w g _ s (by omega) (by omega)]
      omega
    · rw [if_neg hc]
      exact ⟨h0, h1⟩
  · intro hlast
    unfold nextSlide
    rw [if_neg (by omega)]
  · intro hfirst
    unfold prevSlide
    rw [if_neg (by omega)]

/-- C2 witness: the initialized 3-slide carousel sits at index 0, where
`prevSlide` is a no-op. -/
theorem carousel_index_invariant_witness :
    0 < sampleCarousel.totalSlides ∧ prevSlide 100 10 sampleCarousel = sampleCarousel :=
  ⟨by decide,
    (carousel_index_invariant 100 10 5 sampleCarousel
      (by decide) (by decide) (by decide)).2.2.2.2.1 (by decide)⟩

/-- C3: at gesture-end, `handleSwipe` navigates exactly when the magnitude
of the horizontal delta exceeds both the vertical delta and the 50px
threshold — to the next slide when the finger moved left (end x before
start x) and to the previous slide when it moved right — and performs no
navigation otherwise. -/
theorem handleSwipe_classification (w g sx sy ex ey : Int) (s : CarouselState) :
    ((|sx - ex| > |sy - ey| ∧ |sx - ex| > swipeThreshold) →
      (ex < sx → handleSwipe w g sx sy ex ey s = nextSlide w g s) ∧
      (sx < ex → handleSwipe w g sx sy ex ey s = prevSlide w g s)) ∧
    (¬(|sx - ex| > |sy - ey| ∧ |sx - ex| > swipeThreshold) →
      handleSwipe w g sx sy ex ey s = s) := by
  unfold handleSwipe
  constructor
  · intro h
    rw [if_pos h]
    constructor
    · intro hlt
      rw [if_pos (by omega : sx - ex > 0)]
    · intro hgt
      rw [if_neg (by omega : ¬(sx - ex > 0))]
  · intro h
    rw [if_neg h]

/-- C3 witness: a gesture with horizontal delta −60px (start x 200, end x
140) and vertical delta 5px triggers `nextSlide`; a gesture with horizontal
delta −30px (start x 200, end x 170) triggers no navigation. -/
theorem handleSwipe_classification_witness :
    handleSwipe 100 10 200 50 140 45 sampleCarousel = nextSlide 100 10 sampleCarousel ∧
    handleSwipe 100 10 200 50 170 50 sampleCarousel = sampleCarousel :=
  ⟨((handleSwipe_classification 100 10 200 50 140 45 sampleCarousel).1 (by decide)).1
      (by decide),
    (handleSwipe_classification 100 10 200 50 170 50 sampleCarousel).2 (by decide)⟩

/-- C10: when the first slide's measured width is not positive at the
moment of an in-range `goToSlide(i)` call, the call updates `currentSlide`
to `i` and performs no other effect: transform, slide markings, pagination
dots and announcements are all left exactly as they were. -/
theorem goToSlide_nonpositive_width_frame (w g i : Int) (s : CarouselState)
    (hw : w ≤ 0) (h0 : 0 ≤ i) (h1 : i < (s.totalSlides : Int)) :
    goToSlide w g i s = { s with currentSlide := i } := by
  have hb : ¬(i < 0 ∨ (s.totalSlides : Int) ≤ i) := by omega
  have hn : ¬(s.totalSlides = 0) := by
    intro h
    rw [h] at h1
    omega
  unfold goToSlide
  rw [if_neg hb, if_neg hn]
  simp only [if_pos hw]

/-- C10 witness: on the initialized 3-slide carousel, `goToSlide(2)` with a
zero measured width only moves the stored index. -/
theorem goToSlide_nonpositive_width_frame_witness :
    goToSlide 0 10 2 sampleCarousel = { sampleCarousel with currentSlide := 2 } :=
  goToSlide_nonpositive_width_frame 0 10 2 sampleCarousel
    (by decide) (by decide) (by decide)

/-- C4 counterexample: a fragment-load call with an empty target ID fails
validation and performs no DOM mutation at all — neither the fetched markup
nor the error block — even though the fetch environment is healthy.  This
refutes the claim's "never neither" for arbitrary `targetId`. -/
theorem loadComponent_mutation_cex :
    (settledWrites (loadComponent "" "components/nav.html" sampleLoadEnvOk)).length ≠ 1 := by
  decide

/-- C4 (amended): for every fragment-load call with non-empty string
arguments whose target element exists, `loadComponent` performs exactly one
mutation of the target: it replaces the target's content with the fetched
markup when the fetch succeeds, and replaces it with exactly the configured
`role="alert"` error block when the fetch fails — never both, never
neither. -/
theorem loadComponent_mutation_dichotomy (elementId componentPath : String)
    (env : LoadEnv) (hid : elementId ≠ "") (hpath : componentPath ≠ "")
    (helem : env.elementExists elementId = true) :
    (∃ html, env.fetch componentPath = Except.ok html ∧
      loadComponent elementId componentPath env =
        PResult.resolved (true, [DomWrite.setContent html])) ∨
    (∃ e, env.fetch componentPath = Except.error e ∧
      loadComponent elementId componentPath env =
        PResult.resolved (false,
          [DomWrite.setContent (errorBlockHTML componentLoadError)])) := by
  cases hfetch : env.fetch componentPath with
  | ok html =>
      left
      refine ⟨html, rfl, ?_⟩
      simp [loadComponent, fetchHTML, hid, hpath, helem, hfetch]
  | error e =>
      right
      refine ⟨e, rfl, ?_⟩
      simp [loadComponent, fetchHTML, handleComponentLoadError, hid, hpath, helem, hfetch]

/-- C4 witness: instantiating the amended theorem on a failing fetch shows
the single error-block mutation. -/
theorem loadComponent_mutation_dichotomy_witness :
    (∃ html, sampleLoadEnvFail.fetch "components/nav.html" = Except.ok html ∧
      loadComponent "nav-placeholder" "components/nav.html" sampleLoadEnvFail =
        PResult.resolved (true, [DomWrite.setContent html])) ∨
    (∃ e, sampleLoadEnvFail.fetch "components/nav.html" = Except.error e ∧
      loadComponent "nav-placeholder" "components/nav.html" sampleLoadEnvFail =
        PResult.resolved (false,
          [DomWrite.setContent (errorBlockHTML componentLoadError)])) :=
  loadComponent_mutation_dichotomy "nav-placeholder" "components/nav.html"
    sampleLoadEnvFail (by decide) (by decide) rfl

/-- C5: `initializeComponents` always resolves, for every document and
network environment (hence for every combination of per-fragment and
per-card outcomes, including all fetches failing): it settles one result
per configured placeholder plus, when the project-card container resolves,
one per configured card, and no individual failure escapes the
`allSettled` join. -/
theorem initializeComponents_always_resolves (env : LoadEnv) :
    (initializeComponents env).isResolved = true ∧
    ∃ results, initializeComponents env = PResult.resolved results ∧
      results.length = appConfigComponents.length +
        (if env.selectorExists projectCardsListSelector then
          appConfigProjectCards.length else 0) := by
  unfold initializeComponents allSettled
  by_cases hsel : env.selectorExists projectCardsListSelector
  · simp [hsel, PResult.isResolved]
  · simp [hsel, PResult.isResolved]

/-- C6 counterexample: with focusables `[10, 20, 30]` on an active
container, the trailing-navigation key with the backward modifier while
focus sits on the last focusable (30) is not intercepted at all — it does
not move focus to the first focusable (10).  The backward redirection fires
only from the first focusable. -/
theorem trapFocus_backward_from_last_cex :
    createFocusTrap [10, 20, 30] true 30 { key := "Tab", shiftKey := true } ≠
        TrapAction.redirect 10 ∧
    createFocusTrap [10, 20, 30] true 30 { key := "Tab", shiftKey := true } =
        TrapAction.passThrough := by
  decide

/-- C6 (amended): for a trap over `[a, b, c]` on an active container, the
trailing-navigation key with the backward modifier redirects focus from the
first focusable `a` to the last `c` (and passes through on `c`); without
the modifier it redirects from the last `c` to the first `a`, and on `a` it
is not intercepted (browser default forward-tab applies). -/
theorem trapFocus_boundary_behavior (a b c : Nat) (hac : a ≠ c) :
    createFocusTrap [a, b, c] true a { key := "Tab", shiftKey := true } =
        TrapAction.redirect c ∧
    createFocusTrap [a, b, c] true c { key := "Tab", shiftKey := true } =
        TrapAction.passThrough ∧
    createFocusTrap [a, b, c] true c { key := "Tab", shiftKey := false } =
        TrapAction.redirect a ∧
    createFocusTrap [a, b, c] true a { key := "Tab", shiftKey := false } =
        TrapAction.passThrough := by
  have hca : c ≠ a := Ne.symm hac
  simp [createFocusTrap, hac, hca]

/-- C6 witness: the amended boundary behavior on focusables `[10, 20, 30]`:
Shift+Tab on the first redirects to the last. -/
theorem trapFocus_boundary_behavior_witness :
    (10 : Nat) ≠ 30 ∧
    createFocusTrap [10, 20, 30] true 10 { key := "Tab", shiftKey := true } =
        TrapAction.redirect 30 :=
  ⟨by decide, (trapFocus_boundary_behavior 10 20 30 (by decide)).1⟩

/-- C7 counterexample: with the overlay already open, `openMenuOverlay()`
fires the menu button's click handler, which toggles on the current state
and therefore closes the overlay — after the call the overlay is not
open, refuting "for every overlay state the overlay is open after the call
returns". -/
theorem openMenuOverlay_toggle_cex :
    (openMenuOverlay sampleMenuEnv sampleOverlayOpen).overlayActive ≠ true := by
  decide

/-- C7 (amended): `openMenuOverlay()` fires the same public trigger path as
the menu button (whose handler toggles on the current state); invoked while
the overlay is closed, it performs the Closed → Open transition: after the
call the overlay and trigger carry the active state, the trigger is marked
expanded, and the open announcement followed by the navigation-menu-opened
announcement have been issued. -/
theorem openMenuOverlay_opens_when_closed (env : MenuEnv) (s : OverlayState)
    (hbtn : env.menuBtnExists = true) (hov : env.menuOverlayExists = true)
    (hclosed : s.overlayActive = false) :
    (openMenuOverlay env s).overlayActive = true ∧
    (openMenuOverlay env s).btnActive = true ∧
    (openMenuOverlay env s).btnExpanded = true ∧
    (openMenuOverlay env s).announced =
      s.announced ++ ["Menu opened", "Navigation menu opened"] := by
  unfold openMenuOverlay menuBtnClick openMenu
  simp [hbtn, hov, hclosed]
  cases env.menuLinks <;> simp

/-- C7 witness: opening from the sample closed state. -/
theorem openMenuOverlay_opens_when_closed_witness :
    (openMenuOverlay sampleMenuEnv sampleOverlayClosed).overlayActive = true :=
  (openMenuOverlay_opens_when_closed sampleMenuEnv sampleOverlayClosed
    rfl rfl rfl).1

/-- C8: a completed, unpaused rotation cycle advances the word index by one
modulo the word-list length and sets the displayed text to the word at the
new index. -/
theorem rotationCycle_advances_index (industries : List String) (s : RotationState)
    (hne : industries ≠ []) (hp : s.isPaused = false) :
    (rotationCycle industries s).currentIndex =
      (s.currentIndex + 1) % industries.length ∧
    industries[(s.currentIndex + 1) % industries.length]? =
      some ((rotationCycle industries s).displayedText) := by
  have hlen : 0 < industries.length := List.length_pos.mpr hne
  have hk : (s.currentIndex + 1) % industries.length < industries.length :=
    Nat.mod_lt _ hlen
  have hcyc : rotationCycle industries s =
      updateRotatingTextEnd (updateRotatingTextSwap industries (updateRotatingTextStart s)) := by
    unfold rotationCycle
    rw [hp]
    simp
  have hstart : updateRotatingTextStart s = { s with fadeOut := true } := by
    unfold updateRotatingTextStart
    rw [hp]
    simp
  rw [hcyc, hstart]
  unfold updateRotatingTextEnd updateRotatingTextSwap
  refine ⟨rfl, ?_⟩
  show industries[(s.currentIndex + 1) % industries.length]? =
    some (industries.getD ((s.currentIndex + 1) % industries.length) s.displayedText)
  rw [List.getD_eq_getElem industries s.displayedText hk, List.getElem?_eq_getElem hk]

/-- C8 witness: with the five fallback industry words, starting at index 0,
one completed cycle lands on index 1 and displays the second word. -/
theorem rotationCycle_advances_index_witness :
    rotatingIndustries ≠ [] ∧
    ((rotationCycle rotatingIndustries sampleRotation).currentIndex =
        (sampleRotation.currentIndex + 1) % rotatingIndustries.length ∧
      rotatingIndustries[(sampleRotation.currentIndex + 1) % rotatingIndustries.length]? =
        some ((rotationCycle rotatingIndustries sampleRotation).displayedText)) :=
  ⟨by decide,
    rotationCycle_advances_index rotatingIndustries sampleRotation (by decide) rfl⟩

/-- C9: two interleaved announcements: each non-empty announce overwrites
the live region's content and appends its own clear timer without
cancelling the other's, so the region holds the most-recently-written
message, and the first announcement's clear timer — which fires before the
second announcement's own timer — empties the region early. -/
theorem announcer_independent_clears (t1 t2 : Nat) (m1 m2 : String)
    (s : AnnouncerState) (hm1 : m1 ≠ "") (hm2 : m2 ≠ "") (h12 : t1 < t2)
    (hin : t2 < t1 + screenReaderClearDelay) (hpend : s.pendingClears = []) :
    (announceToScreenReader t1 m1 s).content = m1 ∧
    (announceToScreenReader t2 m2 (announceToScreenReader t1 m1 s)).content = m2 ∧
    (announceToScreenReader t2 m2 (announceToScreenReader t1 m1 s)).pendingClears =
      [t1 + screenReaderClearDelay, t2 + screenReaderClearDelay] ∧
    (fireClear (t1 + screenReaderClearDelay)
        (announceToScreenReader t2 m2 (announceToScreenReader t1 m1 s))).content = "" ∧
    t1 + screenReaderClearDelay < t2 + screenReaderClearDelay := by
  unfold announceToScreenReader fireClear
  simp [hm1, hm2, hpend]
  omega

/-- C9 witness: an announcement at t=0 and a second at t=600; the first's
clear timer at t=1000 empties the region while the second's own timer is
still pending. -/
theorem announcer_independent_clears_witness :
    (fireClear (0 + screenReaderClearDelay)
        (announceToScreenReader 600 "Navigation menu opened"
          (announceToScreenReader 0 "Menu opened" sampleAnnouncer))).content = "" :=
  (announcer_independent_clears 0 600 "Menu opened" "Navigation menu opened"
    sampleAnnouncer (by decide) (by decide) (by decide) (by decide) rfl).2.2.2.1

end CopperTech
